import Mathlib

/-!
Verification development for the M-Pesa contribution/reversal payment
reconciliation engine of the crowdfunding backend.  The definitions below are
a shallow embedding of the JavaScript source: the `MPesa` class (charge
initiation, callback handlers, campaign-funding updater, phone formatting)
and the contribution/refund route handlers.  Database tables are embedded as
lists of records; the supabase `.single()` query is embedded as a filter that
succeeds only on exactly one matching row; JavaScript numbers are embedded as
`Option ℚ` with `none` standing for NaN, so that the NaN comparison semantics
(`NaN < x` and `NaN > x` are both false) are captured exactly.
-/

/-- A JavaScript number that may be NaN (`none` = NaN). -/
abbrev JSNum := Option ℚ

/-- Math.floor on a JS number: NaN stays NaN, otherwise the integer floor. -/
def jsFloor (x : JSNum) : Option ℤ := x.map Rat.floor

/-- The JS comparison `x < b` for a possibly-NaN integer `x`: false on NaN. -/
def jsLtInt (x : Option ℤ) (b : ℤ) : Bool :=
  match x with
  | none => false
  | some v => decide (v < b)

/-- The JS comparison `x > b` for a possibly-NaN integer `x`: false on NaN. -/
def jsGtInt (x : Option ℤ) (b : ℤ) : Bool :=
  match x with
  | none => false
  | some v => decide (b < v)

/-- The JavaScript values that can arrive as route/handler arguments. -/
inductive JSVal where
  | num (q : ℚ)
  | str (s : String)
  | nullv
  | undef
deriving Repr, DecidableEq

/-- JS truthiness: 0, "", null and undefined are falsy. -/
def JSVal.truthy : JSVal → Bool
  | .num q => decide (q ≠ 0)
  | .str s => decide (s ≠ "")
  | .nullv => false
  | .undef => false

/-- Decimal value of a digit list. -/
def digitsVal (l : List Char) : ℕ :=
  l.foldl (fun n c => n * 10 + (c.toNat - 48)) 0

/-- True when the list is a nonempty run of decimal digits. -/
def allDigits (l : List Char) : Bool :=
  !l.isEmpty && l.all Char.isDigit

/-- Strip leading and trailing whitespace. -/
def trimChars (l : List Char) : List Char :=
  ((l.dropWhile Char.isWhitespace).reverse.dropWhile Char.isWhitespace).reverse

/-- The `Number(string)` conversion on the decimal fragment the system uses:
whitespace-trimmed empty string is 0, an optional sign followed by digits with
an optional single decimal point is the denoted rational, anything else is
NaN (`none`). -/
def jsStrToNumber (s : String) : JSNum :=
  let t := trimChars s.data
  if t = [] then some 0
  else
    let signed : ℚ × List Char :=
      match t with
      | '-' :: r => (-1, r)
      | '+' :: r => (1, r)
      | r => (1, r)
    match signed.2.splitOn '.' with
    | [ip] => if allDigits ip then some (signed.1 * (digitsVal ip : ℚ)) else none
    | [ip, fp] =>
        if (ip.isEmpty || allDigits ip) && (fp.isEmpty || allDigits fp)
            && !(ip.isEmpty && fp.isEmpty) then
          some (signed.1 * ((digitsVal ip : ℚ) + (digitsVal fp : ℚ) / (10 : ℚ) ^ fp.length))
        else none
    | _ => none

/-- The `Number(x)` conversion. -/
def JSVal.toNumber : JSVal → JSNum
  | .num q => some q
  | .str s => jsStrToNumber s
  | .nullv => some 0
  | .undef => none

/-- A result code as delivered in callback JSON: a number or a string.  The
handlers compare it with strict equality, so `num 0` and `str "0"` differ. -/
inductive RCode where
  | num (n : ℤ)
  | str (s : String)
deriving Repr, DecidableEq

/-- `ResultCode.toString()`. -/
def RCode.toText : RCode → String
  | .num n => toString n
  | .str s => s

/-- A row of the `contributions` table, restricted to the columns the payment
subsystem reads or writes.  Timestamps are abstract instants (`ℕ`). -/
structure Contribution where
  id : ℕ
  campaign_id : Option ℕ
  amount : ℚ
  status : String
  mpesa_checkout_request_id : Option String := none
  transaction_id : Option String := none
  payment_method : Option String := none
  mpesa_phone_number : Option String := none
  result_code : Option String := none
  result_desc : Option String := none
  processed_at : Option ℕ := none
  refunded_at : Option ℕ := none
  updated_at : Option ℕ := none
  refund_reason : Option String := none
  refund_error : Option String := none
  refund_initiated_at : Option ℕ := none
  refund_estimated_completion : Option ℕ := none
  reversal_conversation_id : Option String := none
  reversal_originator_conversation_id : Option String := none
  reversal_result_code : Option String := none
  reversal_result_desc : Option String := none
deriving Repr, DecidableEq

/-- A row of the `campaigns` table (the funding column may be NULL). -/
structure Campaign where
  id : ℕ
  current_funding : Option ℚ
deriving Repr, DecidableEq

/-- The database state the payment subsystem touches. -/
structure DB where
  contributions : List Contribution
  campaigns : List Campaign
deriving Repr, DecidableEq

/-- supabase `.select(...).eq(...).single()`: succeeds only when exactly one
row matches the predicate. -/
def singleWhere (p : α → Bool) (l : List α) : Option α :=
  match l.filter p with
  | [x] => some x
  | _ => none

/-- Lookup `.eq('mpesa_checkout_request_id', cid).single()`. -/
def findContributionByCheckout (db : DB) (cid : String) : Option Contribution :=
  singleWhere (fun c => decide (c.mpesa_checkout_request_id = some cid)) db.contributions

/-- Lookup `.eq('transaction_id', k).single()`. -/
def findContributionByTx (db : DB) (k : String) : Option Contribution :=
  singleWhere (fun c => decide (c.transaction_id = some k)) db.contributions

/-- Lookup `.eq('id', i).single()` on contributions. -/
def findContributionById (db : DB) (i : ℕ) : Option Contribution :=
  singleWhere (fun c => decide (c.id = i)) db.contributions

/-- Lookup `.eq('id', gid).single()` on campaigns; a null id matches no row. -/
def findCampaign (db : DB) (gid : Option ℕ) : Option Campaign :=
  singleWhere (fun g => decide (some g.id = gid)) db.campaigns

/-- `.update(...).eq('id', i)` on contributions. -/
def updateContributionsWhere (db : DB) (i : ℕ) (f : Contribution → Contribution) : DB :=
  { db with contributions := db.contributions.map (fun c => if c.id = i then f c else c) }

/-- `.update(...).eq('id', i)` on campaigns. -/
def updateCampaignsWhere (db : DB) (i : ℕ) (f : Campaign → Campaign) : DB :=
  { db with campaigns := db.campaigns.map (fun g => if g.id = i then f g else g) }

/-- `updateCampaignFunding(campaignId, amount)`.  The `increment_campaign_funding`
RPC it tries first is not defined anywhere in the repository, so the in-source
fallback runs: read the campaign row, then write
`(campaign.current_funding || 0) + amount` back.  A missing campaign row (or a
null campaign id) leaves the table unchanged.  Note there is no clamping. -/
def updateCampaignFunding (db : DB) (campaignId : Option ℕ) (amount : ℚ) : DB :=
  match findCampaign db campaignId with
  | none => db
  | some g =>
      updateCampaignsWhere db g.id
        (fun g0 => { g0 with current_funding := some (g.current_funding.getD 0 + amount) })

/-- The funding total of a campaign, with the `|| 0` null-default applied. -/
def fundingOf (db : DB) (gid : Option ℕ) : Option ℚ :=
  (findCampaign db gid).map (fun g => g.current_funding.getD 0)

/-- One `{Name, Value}` entry of the charge-callback metadata item list. -/
structure MetaItem where
  Name : String
  Value : String
deriving Repr, DecidableEq

/-- The `CallbackMetadata` block of an stk callback. -/
structure StkMetadata where
  Item : List MetaItem
deriving Repr, DecidableEq

/-- The `Body.stkCallback` envelope of a charge callback. -/
structure StkCallback where
  CheckoutRequestID : Option String
  ResultCode : RCode
  ResultDesc : String
  CallbackMetadata : Option StkMetadata := none
deriving Repr, DecidableEq

/-- A charge-callback delivery: `test` models a truthy `callbackData.test`
connectivity probe, `stkCallback = none` models a payload in which
`Body?.stkCallback` is absent. -/
structure ChargeCallback where
  test : Bool := false
  stkCallback : Option StkCallback
deriving Repr, DecidableEq

/-- `parseCallbackMetadata` output. -/
structure TransactionDetails where
  mpesaReceiptNumber : Option String := none
  amount : JSNum := none
  transactionDate : Option String := none
  phoneNumber : Option String := none
  balance : Option String := none
deriving Repr, DecidableEq

/-- `parseCallbackMetadata(metadata)`: walk the unordered item list, the last
occurrence of each name winning.  (The numeric parse of the `Amount` item is
embedded with the string-to-number conversion; no claim reads it.) -/
def parseCallbackMetadata (metadata : Option StkMetadata) : TransactionDetails :=
  match metadata with
  | none => {}
  | some m =>
    if m.Item.isEmpty then {}
    else
      m.Item.foldl (fun d item =>
        if item.Name = "Amount" then { d with amount := jsStrToNumber item.Value }
        else if item.Name = "MpesaReceiptNumber" then { d with mpesaReceiptNumber := some item.Value }
        else if item.Name = "TransactionDate" then { d with transactionDate := some item.Value }
        else if item.Name = "PhoneNumber" then { d with phoneNumber := some item.Value }
        else if item.Name = "Balance" then { d with balance := some item.Value }
        else d) {}

/-- The per-row update applied by `handleContributionCallback`: the result
code/description are always recorded; a strict-equality numeric result code 0
marks the row completed with receipt/phone/date details, any other code marks
it failed. -/
def chargeCallbackUpdate (now : ℕ) (cb : StkCallback) (td : TransactionDetails)
    (x : Contribution) : Contribution :=
  let x := { x with result_code := some cb.ResultCode.toText,
                    result_desc := some cb.ResultDesc,
                    updated_at := some now }
  if cb.ResultCode = RCode.num 0 then
    let x := { x with status := "completed", processed_at := some now }
    let x := match td.mpesaReceiptNumber with
      | some r => { x with transaction_id := some r }
      | none => x
    let x := match td.phoneNumber with
      | some ph => { x with mpesa_phone_number := some ph }
      | none => x
    match td.transactionDate with
    | some dt => { x with result_desc := some (cb.ResultDesc ++ " | Transaction Date: " ++ dt) }
    | none => x
  else { x with status := "failed" }

/-- `handleContributionCallback(callbackData)`: test payloads and malformed
payloads are acknowledged without state change; otherwise the contribution is
looked up by checkout-request id, its row is rewritten per the result code,
and the campaign ledger is credited only when the result code is 0 and the row
was not already completed. -/
def handleContributionCallback (now : ℕ) (db : DB) (p : ChargeCallback) : DB :=
  if p.test then db
  else
    match p.stkCallback with
    | none => db
    | some cb =>
      match cb.CheckoutRequestID with
      | none => db
      | some cid =>
        if cid = "" then db
        else
          let td := parseCallbackMetadata cb.CallbackMetadata
          match findContributionByCheckout db cid with
          | none => db
          | some c =>
            let db1 := updateContributionsWhere db c.id (chargeCallbackUpdate now cb td)
            if cb.ResultCode = RCode.num 0 ∧ c.status ≠ "completed" then
              updateCampaignFunding db1 c.campaign_id c.amount
            else db1

/-- One `{Key, Value}` entry of a reversal callback's result parameters. -/
structure RParam where
  Key : String
  Value : String
deriving Repr, DecidableEq

/-- The `ResultParameters` block of a reversal callback. -/
structure ResultParams where
  ResultParameter : List RParam
deriving Repr, DecidableEq

/-- The `Result` envelope of a reversal callback. -/
structure ReversalResult where
  ResultCode : RCode
  ResultDesc : String
  OriginatorConversationID : Option String := none
  ConversationID : Option String := none
  TransactionID : Option String := none
  ResultParameters : Option ResultParams := none
deriving Repr, DecidableEq

/-- A reversal-callback delivery; `Result = none` models a payload without the
`Result` envelope. -/
structure ReversalCallback where
  Result : Option ReversalResult
deriving Repr, DecidableEq

/-- `parseReversalResultParameters` output (the fields the active handler reads). -/
structure ReversalDetails where
  originalTransactionID : Option String := none
  amount : JSNum := none
  debitAccountBalance : Option String := none
  transCompletedTime : Option String := none
  charge : JSNum := none
  creditPartyPublicName : Option String := none
  debitPartyPublicName : Option String := none
deriving Repr, DecidableEq

/-- `parseReversalResultParameters(resultParameters)` (the second, overriding
definition): walk the key/value list, the last occurrence of a key winning. -/
def parseReversalResultParameters (rp : Option ResultParams) : ReversalDetails :=
  match rp with
  | none => {}
  | some ps =>
    if ps.ResultParameter.isEmpty then {}
    else
      ps.ResultParameter.foldl (fun d param =>
        if param.Key = "OriginalTransactionID" then { d with originalTransactionID := some param.Value }
        else if param.Key = "Amount" then { d with amount := jsStrToNumber param.Value }
        else if param.Key = "DebitAccountBalance" then { d with debitAccountBalance := some param.Value }
        else if param.Key = "TransCompletedTime" then { d with transCompletedTime := some param.Value }
        else if param.Key = "Charge" then { d with charge := jsStrToNumber param.Value }
        else if param.Key = "CreditPartyPublicName" then { d with creditPartyPublicName := some param.Value }
        else if param.Key = "DebitPartyPublicName" then { d with debitPartyPublicName := some param.Value }
        else d) {}

/-- The JS `a || b` on nullable strings: null, undefined and "" fall through. -/
def jsOrStr (a b : Option String) : Option String :=
  match a with
  | some s => if s = "" then b else some s
  | none => b

/-- The lookup key `resultParams.originalTransactionID || TransactionID` used
by the active reversal handler to find the contribution. -/
def reversalLookupKey (r : ReversalResult) : Option String :=
  jsOrStr (parseReversalResultParameters r.ResultParameters).originalTransactionID r.TransactionID

/-- The per-row update applied by the active `handleReversalCallback`: the
reversal correlation/result fields are always recorded; only a strict-equality
numeric result code 0 changes the status (to refunded, with the refunded
timestamp).  Any other code leaves the status as it was. -/
def reversalCallbackUpdate (now : ℕ) (r : ReversalResult) (x : Contribution) : Contribution :=
  let x := { x with updated_at := some now,
                    reversal_conversation_id := r.ConversationID,
                    reversal_result_code := some r.ResultCode.toText,
                    reversal_result_desc := some r.ResultDesc }
  if r.ResultCode = RCode.num 0 then
    { x with status := "refunded", refunded_at := some now }
  else x

/-- `handleReversalCallback(callbackData)` — the second definition in the
`MPesa` class body, which overrides the earlier one of the same name and is
therefore the handler that actually runs.  It resolves the contribution only
by `transaction_id`, records the reversal result, and on numeric result code
0 marks the row refunded and debits the campaign funding by the stored
amount.  It never consults the row's current status. -/
def handleReversalCallback (now : ℕ) (db : DB) (p : ReversalCallback) : DB :=
  match p.Result with
  | none => db
  | some r =>
    match reversalLookupKey r with
    | none => db
    | some k =>
      match findContributionByTx db k with
      | none => db
      | some c =>
        let db1 := updateContributionsWhere db c.id (reversalCallbackUpdate now r)
        if r.ResultCode = RCode.num 0 then
          updateCampaignFunding db1 c.campaign_id (-c.amount)
        else db1

/-- `formatPhoneNumber` keeps only the digits of the input, prefixes the
country code per the leading-digit cases, and parses the result as an
integer. -/
def jsParseIntDigits (s : List Char) : Option ℕ :=
  if allDigits s then some (digitsVal s) else none

/-- `formatPhoneNumber(phoneNumber)` from the `MPesa` class. -/
def formatPhoneNumber (phoneNumber : String) : Option ℕ :=
  let cleaned := phoneNumber.data.filter Char.isDigit
  if "254".data.isPrefixOf cleaned then jsParseIntDigits cleaned
  else if "0".data.isPrefixOf cleaned then jsParseIntDigits ("254".data ++ cleaned.drop 1)
  else jsParseIntDigits ("254".data ++ cleaned)

/-- `if (!phoneNumber || !amount || !contributionId)` at the top of
`initiateSTKPush`. -/
def stkMissingParams (phoneNumber amount contributionId : JSVal) : Bool :=
  !phoneNumber.truthy || !amount.truthy || !contributionId.truthy

/-- `Math.floor(Number(amount))` — NaN stays NaN. -/
def stkNumericAmount (amount : JSVal) : Option ℤ :=
  jsFloor amount.toNumber

/-- `numericAmount < 1 || numericAmount > 300000` — both comparisons are
false when `numericAmount` is NaN. -/
def stkAmountInvalid (amount : JSVal) : Bool :=
  jsLtInt (stkNumericAmount amount) 1 || jsGtInt (stkNumericAmount amount) 300000

/-- The validation stage of `initiateSTKPush`, everything that runs before the
upstream request is submitted. -/
def initiateSTKPushValidate (phoneNumber amount contributionId : JSVal) : Except String Unit :=
  if stkMissingParams phoneNumber amount contributionId then
    Except.error "Missing required parameters for STK push"
  else if stkAmountInvalid amount then
    Except.error "Invalid amount: must be between 1 and 300,000 KES"
  else Except.ok ()

/-- A plain rendering of a JS value, used where the source calls
`.toString()` on an argument; it agrees with JS on the strings and integers
the system passes. -/
def JSVal.toText : JSVal → String
  | .num q => toString q
  | .str s => s
  | .nullv => "null"
  | .undef => "undefined"

/-- The upstream charge request body built by `initiateSTKPush` (the fields
derived from the arguments; credential and clock fields are environment
input and are omitted). -/
structure PaymentRequest where
  BusinessShortCode : ℕ
  TransactionType : String
  Amount : Option ℤ
  PartyA : Option ℕ
  PhoneNumber : Option ℕ
  AccountReference : String
  TransactionDesc : String
deriving Repr, DecidableEq

/-- The `paymentRequest` object `initiateSTKPush` submits upstream. -/
def buildPaymentRequest (phoneNumber amount contributionId : JSVal) : PaymentRequest :=
  { BusinessShortCode := 174379,
    TransactionType := "CustomerPayBillOnline",
    Amount := stkNumericAmount amount,
    PartyA := formatPhoneNumber phoneNumber.toText,
    PhoneNumber := formatPhoneNumber phoneNumber.toText,
    AccountReference := "CONTRIBUTION_" ++ contributionId.toText,
    TransactionDesc := "Campaign Contribution - " ++ contributionId.toText }

/-- The catch-block message mapping of `initiateSTKPush`: an `ECONNABORTED`
(timeout) failure is rethrown as the timeout message, an upstream error
message is passed through, anything else is wrapped. -/
def stkPushCatchMessage (errorCode : Option String) (responseErrorMessage : Option String)
    (baseMessage : String) : String :=
  if errorCode = some "ECONNABORTED" then "M-Pesa service timeout - please try again"
  else
    match responseErrorMessage with
    | some m => m
    | none => "Payment initiation failed: " ++ baseMessage

/-- Whether `pat` occurs contiguously inside `s`. -/
def listHasInfix : List Char → List Char → Bool
  | s@(_ :: rest), pat => pat.isPrefixOf s || listHasInfix rest pat
  | [], pat => pat.isEmpty

/-- JS `String.prototype.includes`. -/
def jsIncludes (s pat : String) : Bool :=
  listHasInfix s.data pat.data

/-- The HTTP answer assembled by the contribution-initiation catch block. -/
structure InitiationErrorResponse where
  statusCode : ℕ
  userMessage : String
  can_retry : Bool
deriving Repr, DecidableEq

/-- The catch block of the contribution-initiation route: whatever error the
gateway client threw, the contribution row is set to status failed with the
error recorded, and the HTTP status/retry hint are derived from the message
text. -/
def contributionInitiationCatch (now : ℕ) (db : DB) (contributionId : ℕ)
    (errMsg : String) : DB × InitiationErrorResponse :=
  let db1 := updateContributionsWhere db contributionId (fun c =>
    { c with status := "failed",
             result_desc := some ("M-Pesa initiation failed: " ++ errMsg),
             updated_at := some now })
  let statusCode : ℕ :=
    if jsIncludes errMsg "timeout" then 504
    else if jsIncludes errMsg "Invalid Access Token" then 503
    else if jsIncludes errMsg "Invalid phone number" then 400
    else 500
  let userMessage : String :=
    if jsIncludes errMsg "timeout" then "Payment service is currently slow. Please try again in a few minutes."
    else if jsIncludes errMsg "Invalid Access Token" then "Payment service is temporarily unavailable. Please try again later."
    else if jsIncludes errMsg "Invalid phone number" then "Invalid phone number format. Please check and try again."
    else "Failed to initiate payment. Please try again."
  (db1, { statusCode := statusCode, userMessage := userMessage,
          can_retry := decide (statusCode ≥ 500) })

/-- The upstream response to a reversal-initiation request. -/
structure GatewayReversalResponse where
  ResponseCode : String
  ResponseDescription : String
  OriginatorConversationID : String
  ConversationID : String
deriving Repr, DecidableEq

/-- An abstract reversal gateway: transaction id, whole-unit amount, remarks
and occasion in, upstream response (or a transport error) out. -/
def GatewayReversal : Type :=
  String → ℤ → String → String → Except String GatewayReversalResponse

/-- The identifier `occasion` read at `Occasion: occasion.substring(0, 100)`
inside `initiateReversal`.  No binding for `occasion` exists in the method,
class, or module scope of the source file (only the separate method
`reverseTransaction` has such a parameter), so the lookup finds nothing and
evaluating the request object raises a ReferenceError. -/
def occasionBinding : Option String := none

/-- The conversation-identifier pair returned by a successful reversal
initiation. -/
structure ReversalInit where
  OriginatorConversationID : String
  ConversationID : String
deriving Repr, DecidableEq

/-- `initiateReversal(transactionId, amount, remarks)` with its catch-block
message wrapping.  The amount check runs first; building the request body
then reads the unbound identifier `occasion` (see `occasionBinding`), whose
ReferenceError is caught and rethrown as a wrapped message — so the
submission branch below it can never run. -/
def initiateReversal (gw : GatewayReversal) (transactionId : String) (amount : ℚ)
    (remarks : String) : Except String ReversalInit :=
  let numericAmount := Rat.floor amount
  if numericAmount < 1 ∨ numericAmount > 300000 then
    Except.error "Reversal initiation failed: Invalid reversal amount: must be between 1 and 300,000 KES"
  else
    match occasionBinding with
    | none => Except.error "Reversal initiation failed: occasion is not defined"
    | some occ =>
      match gw transactionId numericAmount (String.mk (remarks.data.take 100))
          (String.mk (occ.data.take 100)) with
      | Except.error e => Except.error ("Reversal initiation failed: " ++ e)
      | Except.ok resp =>
        if resp.ResponseCode = "0" then
          Except.ok { OriginatorConversationID := resp.OriginatorConversationID,
                      ConversationID := resp.ConversationID }
        else
          Except.error ("Reversal initiation failed: M-Pesa Reversal Error: " ++ resp.ResponseDescription)

/-- JS truthiness of a nullable string column. -/
def jsTruthyStrOpt : Option String → Bool
  | none => false
  | some s => decide (s ≠ "")

/-- `Math.max(0, (campaign.current_funding || 0) - contribution.amount)` from
the non-M-Pesa branch of the refund route: the one clamped ledger write. -/
def nonMpesaRefundFunding (current : Option ℚ) (amt : ℚ) : ℚ :=
  max 0 (current.getD 0 - amt)

/-- The HTTP answer of the refund route. -/
structure RefundResponse where
  httpStatus : ℕ
  success : Bool
  message : String
deriving Repr, DecidableEq

/-- The non-M-Pesa branch of the refund route: mark refunded immediately and
apply the clamped funding debit. -/
def refundNonMpesaBranch (now : ℕ) (db : DB) (c : Contribution) (reason : String) :
    DB × RefundResponse :=
  let db1 := updateContributionsWhere db c.id (fun x =>
    { x with status := "refunded",
             refund_reason := some reason,
             refunded_at := some now,
             updated_at := some now })
  let db2 :=
    match c.campaign_id with
    | none => db1
    | some gid =>
      match findCampaign db1 (some gid) with
      | none => db1
      | some g =>
        updateCampaignsWhere db1 g.id (fun g0 =>
          { g0 with current_funding := some (nonMpesaRefundFunding g.current_funding c.amount) })
  (db2, { httpStatus := 200, success := true, message := "Contribution refunded successfully" })

/-- `POST /contributions/:id/refund`: status gate, then the M-Pesa reversal
branch (initiate, then persist refund_pending with the conversation ids and
the estimated completion window, or refund_failed with the captured error on
initiation failure), else the immediate non-M-Pesa refund. -/
def refundContribution (gw : GatewayReversal) (now : ℕ) (db : DB) (contributionId : ℕ)
    (reason : String) : DB × RefundResponse :=
  match findContributionById db contributionId with
  | none => (db, { httpStatus := 404, success := false, message := "Contribution not found" })
  | some c =>
    if c.status ≠ "completed" then
      (db, { httpStatus := 400, success := false,
             message := "Only completed contributions can be refunded" })
    else if c.status = "refunded" ∨ c.status = "refund_pending" ∨ c.status = "refund_failed" then
      (db, { httpStatus := 400, success := false,
             message := "Contribution is already " ++ c.status })
    else if (decide (c.payment_method = some "mpesa") && jsTruthyStrOpt c.transaction_id) = true then
      match c.transaction_id with
      | none => refundNonMpesaBranch now db c reason
      | some txid =>
        match initiateReversal gw txid c.amount reason with
        | Except.ok rres =>
          let db1 := updateContributionsWhere db c.id (fun x =>
            { x with status := "refund_pending",
                     reversal_conversation_id := some rres.ConversationID,
                     reversal_originator_conversation_id := some rres.OriginatorConversationID,
                     refund_reason := some reason,
                     refund_initiated_at := some now,
                     updated_at := some now,
                     refund_estimated_completion := some (now + 600000) })
          (db1, { httpStatus := 200, success := true,
                  message := "M-Pesa reversal initiated successfully. Processing will complete automatically via callback." })
        | Except.error msg =>
          let db1 := updateContributionsWhere db c.id (fun x =>
            { x with status := "refund_failed",
                     refund_reason := some reason,
                     refund_error := some msg,
                     refund_initiated_at := some now,
                     updated_at := some now })
          (db1, { httpStatus := 500, success := false,
                  message := "M-Pesa reversal initiation failed" })
    else refundNonMpesaBranch now db c reason

/-- `Rat.floor` agrees with the floor of the `FloorRing` instance (which is
built from it). -/
theorem rat_floor_as_floor (q : ℚ) : Rat.floor q = ⌊q⌋ := by
  rw [Rat.floor_def', Rat.floor_def]

/-- Truthiness of a numeric argument. -/
theorem truthy_num (q : ℚ) : (JSVal.num q).truthy = decide (q ≠ 0) := rfl

/-- Claim C9: the phone-number normalization maps the inputs `0712345678`,
`+254712345678` and `254712345678` to the same canonical numeric form
`254712345678`. -/
theorem phone_normalization_canonical :
    formatPhoneNumber "0712345678" = some 254712345678 ∧
    formatPhoneNumber "+254712345678" = some 254712345678 ∧
    formatPhoneNumber "254712345678" = some 254712345678 :=
  ⟨by decide, by decide, by decide⟩

/-- Claim C8 is false as stated: the amount `300000.5` is greater than
`300000`, yet charge-initiation validation accepts it — `Math.floor` truncates
it to `300000` before the range check, so no error is raised and the request
is submitted. -/
theorem stk_amount_validation_counterexample :
    (300000 : ℚ) < 600001 / 2 ∧
    initiateSTKPushValidate (JSVal.str "0712345678") (JSVal.num (600001 / 2))
      (JSVal.str "contrib-1") = Except.ok () := by
  constructor
  · norm_num
  · have hfl : Rat.floor (600001 / 2 : ℚ) = 300000 := by
      rw [rat_floor_as_floor]
      have h : (600001 / 2 : ℚ) = ((600001 : ℤ) : ℚ) / ((2 : ℕ) : ℚ) := by norm_num
      rw [h, Rat.floor_intCast_div_natCast]
      decide
    simp [initiateSTKPushValidate, stkMissingParams, JSVal.truthy, stkAmountInvalid,
      stkNumericAmount, JSVal.toNumber, jsFloor, jsLtInt, jsGtInt, hfl]

/-- Claim C8 (amended): with the other two parameters truthy, a numeric amount
passes charge-initiation validation exactly when it is nonzero (zero is caught
by the missing-parameter truthiness check) and its `Math.floor` truncation
lies between 1 and 300000.  In particular 0, negative amounts and amounts of
at least 300001 are rejected, 1 and 300000 are accepted, and fractional
amounts strictly between 300000 and 300001 are truncated to 300000 and
accepted. -/
theorem stk_amount_validation_amended (phone cid : JSVal) (hp : phone.truthy = true)
    (hc : cid.truthy = true) (q : ℚ) :
    initiateSTKPushValidate phone (JSVal.num q) cid = Except.ok () ↔
      q ≠ 0 ∧ 1 ≤ Rat.floor q ∧ Rat.floor q ≤ 300000 := by
  by_cases h0 : q = 0
  · simp [initiateSTKPushValidate, stkMissingParams, truthy_num, hp, hc, h0]
  · by_cases h1 : Rat.floor q < 1
    · have hn1 : ¬(1 ≤ Rat.floor q) := by omega
      simp [initiateSTKPushValidate, stkMissingParams, truthy_num, hp, hc, h0,
        stkAmountInvalid, stkNumericAmount, JSVal.toNumber, jsFloor, jsLtInt, jsGtInt,
        h1, hn1]
    · by_cases h2 : (300000 : ℤ) < Rat.floor q
      · have hn2 : ¬(Rat.floor q ≤ 300000) := by omega
        simp [initiateSTKPushValidate, stkMissingParams, truthy_num, hp, hc, h0,
          stkAmountInvalid, stkNumericAmount, JSVal.toNumber, jsFloor, jsLtInt, jsGtInt,
          h1, h2, hn2]
      · have hy1 : 1 ≤ Rat.floor q := by omega
        have hy2 : Rat.floor q ≤ 300000 := by omega
        simp [initiateSTKPushValidate, stkMissingParams, truthy_num, hp, hc, h0,
          stkAmountInvalid, stkNumericAmount, JSVal.toNumber, jsFloor, jsLtInt, jsGtInt,
          h1, h2, hy1, hy2]

/-- Claim C8 amended, witnessed at amount 300000 with truthy string
parameters. -/
theorem stk_amount_validation_amended_witness :
    initiateSTKPushValidate (JSVal.str "0712345678") (JSVal.num 300000)
      (JSVal.str "contrib-1") = Except.ok () ↔
      (300000 : ℚ) ≠ 0 ∧ 1 ≤ Rat.floor (300000 : ℚ) ∧ Rat.floor (300000 : ℚ) ≤ 300000 :=
  stk_amount_validation_amended (JSVal.str "0712345678") (JSVal.str "contrib-1")
    (by decide) (by decide) 300000

/-- Claim C10: a truthy amount whose numeric conversion is NaN sails through
the charge-initiation validation — both range comparisons are false for NaN —
and the upstream request is built with `Amount` equal to NaN. -/
theorem nan_amount_passes_validation (phone v cid : JSVal) (hp : phone.truthy = true)
    (hv : v.truthy = true) (hc : cid.truthy = true) (hn : v.toNumber = none) :
    initiateSTKPushValidate phone v cid = Except.ok () ∧
      (buildPaymentRequest phone v cid).Amount = none := by
  constructor
  · simp [initiateSTKPushValidate, stkMissingParams, hp, hv, hc,
      stkAmountInvalid, stkNumericAmount, hn, jsFloor, jsLtInt, jsGtInt]
  · simp [buildPaymentRequest, stkNumericAmount, hn, jsFloor]

/-- Claim C10, witnessed at the non-numeric string amount `"abc"`. -/
theorem nan_amount_passes_validation_witness :
    initiateSTKPushValidate (JSVal.str "0712345678") (JSVal.str "abc")
      (JSVal.str "c1") = Except.ok () ∧
      (buildPaymentRequest (JSVal.str "0712345678") (JSVal.str "abc")
        (JSVal.str "c1")).Amount = none :=
  nan_amount_passes_validation (JSVal.str "0712345678") (JSVal.str "abc")
    (JSVal.str "c1") (by decide) (by decide) (by decide) (by decide)

/-- A row update that preserves the filter predicate commutes with the
single-row lookup. -/
theorem singleWhere_map (p : α → Bool) (f : α → α) (l : List α)
    (h : ∀ x, p (f x) = p x) :
    singleWhere p (l.map f) = (singleWhere p l).map f := by
  unfold singleWhere
  rw [List.filter_map]
  have hpf : p ∘ f = p := funext h
  rw [hpf]
  cases hfl : l.filter p with
  | nil => simp
  | cons a t => cases t <;> simp

/-- Updating contributions leaves the campaigns table unchanged. -/
theorem updateContributionsWhere_campaigns (db : DB) (i : ℕ) (f : Contribution → Contribution) :
    (updateContributionsWhere db i f).campaigns = db.campaigns := rfl

/-- The funding updater leaves the contributions table unchanged. -/
theorem updateCampaignFunding_contributions (db : DB) (gid : Option ℕ) (amt : ℚ) :
    (updateCampaignFunding db gid amt).contributions = db.contributions := by
  unfold updateCampaignFunding
  cases findCampaign db gid <;> rfl

/-- The campaign lookup reads only the campaigns table. -/
theorem findCampaign_eq_of_campaigns (d1 d2 : DB) (gid : Option ℕ)
    (h : d1.campaigns = d2.campaigns) : findCampaign d1 gid = findCampaign d2 gid := by
  unfold findCampaign
  rw [h]

/-- The funding view reads only the campaigns table. -/
theorem fundingOf_eq_of_campaigns (d1 d2 : DB) (gid : Option ℕ)
    (h : d1.campaigns = d2.campaigns) : fundingOf d1 gid = fundingOf d2 gid := by
  unfold fundingOf
  rw [findCampaign_eq_of_campaigns d1 d2 gid h]

/-- The checkout-id lookup reads only the contributions table. -/
theorem findContributionByCheckout_eq_of_contributions (d1 d2 : DB) (cid : String)
    (h : d1.contributions = d2.contributions) :
    findContributionByCheckout d1 cid = findContributionByCheckout d2 cid := by
  unfold findContributionByCheckout
  rw [h]

/-- The transaction-id lookup reads only the contributions table. -/
theorem findContributionByTx_eq_of_contributions (d1 d2 : DB) (k : String)
    (h : d1.contributions = d2.contributions) :
    findContributionByTx d1 k = findContributionByTx d2 k := by
  unfold findContributionByTx
  rw [h]

/-- A contribution update whose row function keeps the checkout id commutes
with the checkout-id lookup. -/
theorem findContributionByCheckout_update (db : DB) (i : ℕ) (f : Contribution → Contribution)
    (hf : ∀ x, (f x).mpesa_checkout_request_id = x.mpesa_checkout_request_id) (cid : String) :
    findContributionByCheckout (updateContributionsWhere db i f) cid
      = (findContributionByCheckout db cid).map (fun c => if c.id = i then f c else c) := by
  unfold findContributionByCheckout updateContributionsWhere
  exact singleWhere_map _ _ _ (fun x => by by_cases hx : x.id = i <;> simp [hx, hf])

/-- A contribution update whose row function keeps the transaction id commutes
with the transaction-id lookup. -/
theorem findContributionByTx_update (db : DB) (i : ℕ) (f : Contribution → Contribution)
    (hf : ∀ x, (f x).transaction_id = x.transaction_id) (k : String) :
    findContributionByTx (updateContributionsWhere db i f) k
      = (findContributionByTx db k).map (fun c => if c.id = i then f c else c) := by
  unfold findContributionByTx updateContributionsWhere
  exact singleWhere_map _ _ _ (fun x => by by_cases hx : x.id = i <;> simp [hx, hf])

/-- A campaign update that keeps ids commutes with the campaign lookup. -/
theorem findCampaign_update (db : DB) (i : ℕ) (f : Campaign → Campaign)
    (hf : ∀ x, (f x).id = x.id) (gid : Option ℕ) :
    findCampaign (updateCampaignsWhere db i f) gid
      = (findCampaign db gid).map (fun g => if g.id = i then f g else g) := by
  unfold findCampaign updateCampaignsWhere
  exact singleWhere_map _ _ _ (fun x => by by_cases hx : x.id = i <;> simp [hx, hf])

/-- The funding total after `updateCampaignFunding` on a campaign that exists:
the signed amount is added, with no clamping. -/
theorem fundingOf_updateCampaignFunding (db : DB) (gid : Option ℕ) (g : Campaign) (amt : ℚ)
    (hg : findCampaign db gid = some g) :
    fundingOf (updateCampaignFunding db gid amt) gid
      = some (g.current_funding.getD 0 + amt) := by
  have h2 : updateCampaignFunding db gid amt
      = updateCampaignsWhere db g.id
          (fun g0 => { g0 with current_funding := some (g.current_funding.getD 0 + amt) }) := by
    unfold updateCampaignFunding
    rw [hg]
  rw [h2]
  unfold fundingOf
  rw [findCampaign_update db g.id
        (fun g0 => { g0 with current_funding := some (g.current_funding.getD 0 + amt) })
        (fun x => rfl) gid, hg]
  simp

/-- Claim C6 is false as stated: a reversal debit routed through
`updateCampaignFunding` is not clamped — debiting 100 from a campaign holding
50 leaves the stored total at −50, strictly below zero. -/
theorem ledger_debit_negative_counterexample :
    fundingOf
        (updateCampaignFunding
          { contributions := [], campaigns := [{ id := 1, current_funding := some 50 }] }
          (some 1) (-100))
        (some 1) = some (-50) ∧ (-50 : ℚ) < 0 := by
  constructor
  · have h : findCampaign
        { contributions := [], campaigns := [{ id := 1, current_funding := some 50 }] }
        (some 1) = some { id := 1, current_funding := some 50 } := by
      simp [findCampaign, singleWhere, List.filter]
    rw [fundingOf_updateCampaignFunding _ _ _ _ h]
    norm_num
  · norm_num

/-- Claim C6 (amended): only the non-M-Pesa immediate-refund branch clamps the
campaign total at zero; `updateCampaignFunding` — the ledger writer used by
both callback reconcilers — adds the signed amount with no clamping, so a
debit exceeding the current total drives the stored total negative. -/
theorem ledger_clamping_amended (current : Option ℚ) (amtClamped amt : ℚ) (db : DB)
    (gid : Option ℕ) (g : Campaign) (hg : findCampaign db gid = some g) :
    0 ≤ nonMpesaRefundFunding current amtClamped ∧
    fundingOf (updateCampaignFunding db gid amt) gid
      = some (g.current_funding.getD 0 + amt) := by
  constructor
  · unfold nonMpesaRefundFunding
    exact le_max_left 0 _
  · exact fundingOf_updateCampaignFunding db gid g amt hg

/-- Claim C6 amended, witnessed on a one-campaign table. -/
theorem ledger_clamping_amended_witness :
    0 ≤ nonMpesaRefundFunding (some 50) 100 ∧
    fundingOf
        (updateCampaignFunding
          { contributions := [], campaigns := [{ id := 1, current_funding := some 50 }] }
          (some 1) (-100))
        (some 1)
      = some ((Option.getD (some (50 : ℚ)) 0) + (-100)) :=
  ledger_clamping_amended (some 50) 100 (-100)
    { contributions := [], campaigns := [{ id := 1, current_funding := some 50 }] }
    (some 1) { id := 1, current_funding := some 50 }
    (by simp [findCampaign, singleWhere, List.filter])

/-- Every call to `initiateReversal` errors: either the amount check fails, or
the unbound `occasion` identifier raises before the request can be sent. -/
theorem initiateReversal_always_error (gw : GatewayReversal) (t : String) (a : ℚ)
    (r : String) :
    initiateReversal gw t a r
        = Except.error "Reversal initiation failed: Invalid reversal amount: must be between 1 and 300,000 KES"
      ∨ initiateReversal gw t a r
        = Except.error "Reversal initiation failed: occasion is not defined" := by
  unfold initiateReversal
  simp only [occasionBinding]
  split
  · left
    rfl
  · right
    rfl

/-- Fixture for claim C7: a single pending contribution awaiting initiation. -/
def pendingInitDB : DB :=
  { contributions := [{ id := 1, campaign_id := some 7, amount := 100, status := "pending" }],
    campaigns := [] }

/-- Claim C7 is false on the code: when charge initiation fails with an
upstream timeout (`ECONNABORTED`), the gateway client rethrows the timeout
message, and the route's catch block marks the contribution `failed` — it
does not stay `pending` — even though the same catch block answers 504 with
`can_retry = true`. -/
theorem timeout_marks_contribution_failed :
    stkPushCatchMessage (some "ECONNABORTED") none "timeout of 30000ms exceeded"
        = "M-Pesa service timeout - please try again" ∧
    ((contributionInitiationCatch 9 pendingInitDB 1
        (stkPushCatchMessage (some "ECONNABORTED") none "timeout of 30000ms exceeded")).1.contributions.map
      (fun c => c.status) = ["failed"] ∧
     (contributionInitiationCatch 9 pendingInitDB 1
        (stkPushCatchMessage (some "ECONNABORTED") none "timeout of 30000ms exceeded")).2.statusCode = 504 ∧
     (contributionInitiationCatch 9 pendingInitDB 1
        (stkPushCatchMessage (some "ECONNABORTED") none "timeout of 30000ms exceeded")).2.can_retry = true) := by
  refine ⟨by decide, by decide, by decide, by decide⟩

/-- Fixture for claim C5: a completed M-Pesa contribution with a settled
receipt, the exact precondition of the refund claim. -/
def refundableDB : DB :=
  { contributions := [{ id := 1, campaign_id := some 7, amount := 100, status := "completed",
                        transaction_id := some "TX9", payment_method := some "mpesa" }],
    campaigns := [{ id := 7, current_funding := some 100 }] }

/-- A reversal gateway that accepts every request, to show the failure is
local to the code and not to the upstream. -/
def gwAccepting : GatewayReversal := fun _t _a _r _o =>
  Except.ok { ResponseCode := "0", ResponseDescription := "Accepted",
              OriginatorConversationID := "OC1", ConversationID := "CV1" }

/-- Claim C5 is false on the code: refunding a completed M-Pesa contribution
with a settled transaction id can never reach the `refund_pending` branch,
because `initiateReversal` always throws (`occasion is not defined`) before
submitting — even with a gateway that would accept.  The route therefore
marks the contribution `refund_failed` with that error captured and answers
500. -/
theorem refund_always_fails_on_occasion :
    ((refundContribution gwAccepting 11 refundableDB 1 "admin refund").1.contributions.map
        (fun c => c.status) = ["refund_failed"]) ∧
    ((refundContribution gwAccepting 11 refundableDB 1 "admin refund").1.contributions.map
        (fun c => c.refund_error)
      = [some "Reversal initiation failed: occasion is not defined"]) ∧
    (refundContribution gwAccepting 11 refundableDB 1 "admin refund").2.httpStatus = 500 := by
  have hfl : Rat.floor (100 : ℚ) = 100 := by
    have h : (100 : ℚ) = ((100 : ℤ) : ℚ) := by norm_num
    rw [rat_floor_as_floor, h, Int.floor_intCast]
  have hcond : ¬(Rat.floor (100 : ℚ) < 1 ∨ (300000 : ℤ) < Rat.floor (100 : ℚ)) := by
    rw [hfl]
    decide
  have hinit : initiateReversal gwAccepting "TX9" 100 "admin refund"
      = Except.error "Reversal initiation failed: occasion is not defined" := by
    unfold initiateReversal
    rw [if_neg hcond]
    simp [occasionBinding]
  refine ⟨?_, ?_, ?_⟩ <;>
    simp [refundContribution, refundableDB, findContributionById, singleWhere, List.filter,
      jsTruthyStrOpt, hinit, updateContributionsWhere]

/-- Fixture for claim C2: a contribution whose refund is pending, with its
settled receipt, and its campaign holding 500. -/
def dupRevDB : DB :=
  { contributions := [{ id := 1, campaign_id := some 3, amount := 100,
                        status := "refund_pending", transaction_id := some "TX1" }],
    campaigns := [{ id := 3, current_funding := some 500 }] }

/-- Fixture for claim C2: a successful reversal callback for receipt TX1. -/
def dupRevCallback : ReversalCallback :=
  { Result := some { ResultCode := RCode.num 0,
                     ResultDesc := "The service request is processed successfully.",
                     OriginatorConversationID := some "OC7",
                     ConversationID := some "CV7",
                     TransactionID := some "TX1" } }

/-- Claim C2 is false on the code: the active reversal handler never checks
the row's current status, so delivering the same successful reversal callback
a second time — when the contribution is already `refunded` — debits the
campaign again: the funding drops from 500 to 400 after one delivery and to
300 after the duplicate, a double debit. -/
theorem duplicate_reversal_double_debits :
    (handleReversalCallback 21 dupRevDB dupRevCallback).contributions.map (fun c => c.status)
        = ["refunded"] ∧
    fundingOf (handleReversalCallback 21 dupRevDB dupRevCallback) (some 3) = some 400 ∧
    fundingOf
        (handleReversalCallback 22 (handleReversalCallback 21 dupRevDB dupRevCallback)
          dupRevCallback) (some 3)
      = some 300 := by
  refine ⟨?_, ?_, ?_⟩ <;>
    simp [handleReversalCallback, dupRevDB, dupRevCallback, reversalLookupKey,
      parseReversalResultParameters, jsOrStr, findContributionByTx, singleWhere,
      List.filter, reversalCallbackUpdate, updateContributionsWhere,
      updateCampaignFunding, findCampaign, updateCampaignsWhere, fundingOf] <;>
    norm_num

/-- Fixture for claim C3: a contribution already settled as completed. -/
def completedChargeDB : DB :=
  { contributions := [{ id := 1, campaign_id := some 3, amount := 100,
                        status := "completed", mpesa_checkout_request_id := some "CO9" }],
    campaigns := [{ id := 3, current_funding := some 100 }] }

/-- Fixture for claim C3: a failure charge callback for checkout CO9. -/
def failChargeCallback : ChargeCallback :=
  { stkCallback := some { CheckoutRequestID := some "CO9", ResultCode := RCode.num 1032,
                          ResultDesc := "Request cancelled by user" } }

/-- Fixture for claim C3: the same contribution in the failed state. -/
def failedChargeDB : DB :=
  { contributions := [{ id := 1, campaign_id := some 3, amount := 100,
                        status := "failed", mpesa_checkout_request_id := some "CO9" }],
    campaigns := [{ id := 3, current_funding := some 100 }] }

/-- Fixture for claim C3: a success charge callback for checkout CO9. -/
def okChargeCallback : ChargeCallback :=
  { stkCallback := some { CheckoutRequestID := some "CO9", ResultCode := RCode.num 0,
                          ResultDesc := "Processed successfully" } }

/-- Claim C3 is false on the code: `handleContributionCallback` overwrites the
status from the result code with no terminal-state guard.  A nonzero-code
callback arriving on a `completed` contribution flips it to `failed` (the
claim says it is rejected and the record unchanged), and a zero-code callback
arriving on a `failed` contribution flips it to `completed` and credits the
campaign a second time. -/
theorem terminal_state_overwritten :
    (handleContributionCallback 41 completedChargeDB failChargeCallback).contributions.map
        (fun c => c.status) = ["failed"] ∧
    (handleContributionCallback 42 failedChargeDB okChargeCallback).contributions.map
        (fun c => c.status) = ["completed"] ∧
    fundingOf (handleContributionCallback 42 failedChargeDB okChargeCallback) (some 3)
      = some 200 := by
  refine ⟨?_, ?_, ?_⟩
  all_goals
    simp [handleContributionCallback, completedChargeDB, failedChargeDB,
      failChargeCallback, okChargeCallback, parseCallbackMetadata,
      findContributionByCheckout, singleWhere, List.filter, chargeCallbackUpdate,
      updateContributionsWhere, updateCampaignFunding, findCampaign,
      updateCampaignsWhere, fundingOf]
  all_goals norm_num

/-- Fixture for claim C4: a refund-pending contribution with receipt TX2. -/
def rev21DB : DB :=
  { contributions := [{ id := 1, campaign_id := some 3, amount := 100,
                        status := "refund_pending", transaction_id := some "TX2" }],
    campaigns := [{ id := 3, current_funding := some 500 }] }

/-- Fixture for claim C4: a reversal callback with the documented secondary
success code 21. -/
def rev21Callback : ReversalCallback :=
  { Result := some { ResultCode := RCode.num 21,
                     ResultDesc := "The service request is processed successfully.",
                     TransactionID := some "TX2" } }

/-- Claim C4 is false on the code: the overriding reversal handler treats only
the strict numeric 0 as success, so result code 21 — which the claim says
transitions the contribution to `refunded` with a ledger debit — leaves the
status at `refund_pending`, sets no refunded timestamp, and leaves the
campaign table untouched. -/
theorem reversal_code21_counterexample :
    (handleReversalCallback 31 rev21DB rev21Callback).contributions.map (fun c => c.status)
        = ["refund_pending"] ∧
    (handleReversalCallback 31 rev21DB rev21Callback).contributions.map
        (fun c => c.refunded_at) = [none] ∧
    (handleReversalCallback 31 rev21DB rev21Callback).campaigns = rev21DB.campaigns := by
  refine ⟨?_, ?_, ?_⟩ <;>
    simp [handleReversalCallback, rev21DB, rev21Callback, reversalLookupKey,
      parseReversalResultParameters, jsOrStr, findContributionByTx, singleWhere,
      List.filter, reversalCallbackUpdate, updateContributionsWhere,
      updateCampaignFunding, findCampaign, updateCampaignsWhere]

/-- The per-row charge-callback update touches result/status/receipt fields
only: correlation ids, row id, campaign reference and amount are unchanged,
and the resulting status is decided by the result code alone. -/
theorem chargeCallbackUpdate_fields (now : ℕ) (cb : StkCallback) (td : TransactionDetails)
    (x : Contribution) :
    (chargeCallbackUpdate now cb td x).mpesa_checkout_request_id = x.mpesa_checkout_request_id ∧
    (chargeCallbackUpdate now cb td x).id = x.id ∧
    (chargeCallbackUpdate now cb td x).campaign_id = x.campaign_id ∧
    (chargeCallbackUpdate now cb td x).amount = x.amount ∧
    (chargeCallbackUpdate now cb td x).status
      = (if cb.ResultCode = RCode.num 0 then "completed" else "failed") := by
  unfold chargeCallbackUpdate
  by_cases h : cb.ResultCode = RCode.num 0
  · cases hmr : td.mpesaReceiptNumber <;> cases hph : td.phoneNumber <;>
      cases htd : td.transactionDate <;> simp [h, hmr, hph, htd]
  · simp [h]

/-- The per-row reversal-callback update touches reversal/status fields only:
the settled receipt, row id, campaign reference and amount are unchanged; the
status becomes `refunded` exactly on numeric result code 0 and is otherwise
untouched; the reversal result code is always recorded. -/
theorem reversalCallbackUpdate_fields (now : ℕ) (r : ReversalResult) (x : Contribution) :
    (reversalCallbackUpdate now r x).transaction_id = x.transaction_id ∧
    (reversalCallbackUpdate now r x).id = x.id ∧
    (reversalCallbackUpdate now r x).campaign_id = x.campaign_id ∧
    (reversalCallbackUpdate now r x).amount = x.amount ∧
    (reversalCallbackUpdate now r x).status
      = (if r.ResultCode = RCode.num 0 then "refunded" else x.status) ∧
    (reversalCallbackUpdate now r x).refunded_at
      = (if r.ResultCode = RCode.num 0 then some now else x.refunded_at) ∧
    (reversalCallbackUpdate now r x).reversal_result_code = some r.ResultCode.toText := by
  unfold reversalCallbackUpdate
  by_cases h : r.ResultCode = RCode.num 0 <;> simp [h]

/-- One-step characterization of `handleContributionCallback` when the payload
is well-formed and the checkout id resolves to a row. -/
theorem handleContributionCallback_found (now : ℕ) (db : DB) (p : ChargeCallback)
    (cb : StkCallback) (cid : String) (c : Contribution)
    (hp : p.test = false) (hb : p.stkCallback = some cb)
    (hcid : cb.CheckoutRequestID = some cid) (hne : ¬(cid = ""))
    (hfind : findContributionByCheckout db cid = some c) :
    handleContributionCallback now db p =
      (if cb.ResultCode = RCode.num 0 ∧ c.status ≠ "completed" then
        updateCampaignFunding
          (updateContributionsWhere db c.id
            (chargeCallbackUpdate now cb (parseCallbackMetadata cb.CallbackMetadata)))
          c.campaign_id c.amount
      else
        updateContributionsWhere db c.id
          (chargeCallbackUpdate now cb (parseCallbackMetadata cb.CallbackMetadata))) := by
  simp only [handleContributionCallback, hp, hb, hcid, hfind, if_neg hne,
    Bool.false_eq_true, if_false]

/-- One-step characterization of the active `handleReversalCallback` when the
payload carries a `Result` envelope and the lookup key resolves to a row. -/
theorem handleReversalCallback_found (now : ℕ) (db : DB) (p : ReversalCallback)
    (r : ReversalResult) (k : String) (c : Contribution)
    (hr : p.Result = some r) (hk : reversalLookupKey r = some k)
    (hc : findContributionByTx db k = some c) :
    handleReversalCallback now db p =
      (if r.ResultCode = RCode.num 0 then
        updateCampaignFunding
          (updateContributionsWhere db c.id (reversalCallbackUpdate now r))
          c.campaign_id (-c.amount)
      else updateContributionsWhere db c.id (reversalCallbackUpdate now r)) := by
  simp only [handleReversalCallback, hr, hk, hc]

/-- Claim C1: for a pending contribution matched by its checkout-request id,
a successful (result code 0) charge callback credits the campaign ledger with
the contribution's stored amount exactly once — after the first delivery the
row is `completed`, so a second delivery of the same callback performs no
further ledger mutation: the funding total after two deliveries equals the
total after one. -/
theorem charge_callback_idempotent (now1 now2 : ℕ) (db : DB) (p : ChargeCallback)
    (cb : StkCallback) (cid : String) (c : Contribution) (g : Campaign)
    (hp : p.test = false) (hb : p.stkCallback = some cb)
    (hcid : cb.CheckoutRequestID = some cid) (hne : ¬(cid = ""))
    (hrc : cb.ResultCode = RCode.num 0)
    (hfind : findContributionByCheckout db cid = some c)
    (hst : c.status = "pending")
    (hg : findCampaign db c.campaign_id = some g) :
    fundingOf (handleContributionCallback now2 (handleContributionCallback now1 db p) p)
        c.campaign_id
      = fundingOf (handleContributionCallback now1 db p) c.campaign_id ∧
    fundingOf (handleContributionCallback now1 db p) c.campaign_id
      = some (g.current_funding.getD 0 + c.amount) := by
  have hcond1 : cb.ResultCode = RCode.num 0 ∧ c.status ≠ "completed" :=
    ⟨hrc, by rw [hst]; decide⟩
  have h1 := handleContributionCallback_found now1 db p cb cid c hp hb hcid hne hfind
  rw [if_pos hcond1] at h1
  have hfound_g : findCampaign
      (updateContributionsWhere db c.id
        (chargeCallbackUpdate now1 cb (parseCallbackMetadata cb.CallbackMetadata)))
      c.campaign_id = some g := by
    rw [findCampaign_eq_of_campaigns _ db _ (updateContributionsWhere_campaigns db c.id _)]
    exact hg
  have hfund1 : fundingOf (handleContributionCallback now1 db p) c.campaign_id
      = some (g.current_funding.getD 0 + c.amount) := by
    rw [h1]
    exact fundingOf_updateCampaignFunding _ _ g c.amount hfound_g
  have hfind1 : findContributionByCheckout (handleContributionCallback now1 db p) cid
      = some (chargeCallbackUpdate now1 cb (parseCallbackMetadata cb.CallbackMetadata) c) := by
    rw [h1]
    rw [findContributionByCheckout_eq_of_contributions _
          (updateContributionsWhere db c.id
            (chargeCallbackUpdate now1 cb (parseCallbackMetadata cb.CallbackMetadata)))
          cid (updateCampaignFunding_contributions _ _ _)]
    rw [findContributionByCheckout_update db c.id
          (chargeCallbackUpdate now1 cb (parseCallbackMetadata cb.CallbackMetadata))
          (fun x => (chargeCallbackUpdate_fields now1 cb _ x).1) cid, hfind]
    simp
  have hstat1 : (chargeCallbackUpdate now1 cb (parseCallbackMetadata cb.CallbackMetadata) c).status
      = "completed" := by
    rw [(chargeCallbackUpdate_fields now1 cb _ c).2.2.2.2, if_pos hrc]
  have hcond2 : ¬(cb.ResultCode = RCode.num 0 ∧
      (chargeCallbackUpdate now1 cb (parseCallbackMetadata cb.CallbackMetadata) c).status
        ≠ "completed") := fun h => h.2 hstat1
  have h2 := handleContributionCallback_found now2 (handleContributionCallback now1 db p) p
    cb cid _ hp hb hcid hne hfind1
  rw [if_neg hcond2] at h2
  refine ⟨?_, hfund1⟩
  rw [h2]
  rw [fundingOf_eq_of_campaigns _ (handleContributionCallback now1 db p) _
        (updateContributionsWhere_campaigns _ _ _)]

/-- Fixture for claim C1's witness: a pending contribution for checkout CO123
against a campaign holding 0. -/
def c1DB : DB :=
  { contributions := [{ id := 1, campaign_id := some 7, amount := 100, status := "pending",
                        mpesa_checkout_request_id := some "CO123" }],
    campaigns := [{ id := 7, current_funding := some 0 }] }

/-- Fixture for claim C1's witness: the successful charge callback for CO123
carrying receipt ABC1. -/
def c1Cb : StkCallback :=
  { CheckoutRequestID := some "CO123", ResultCode := RCode.num 0, ResultDesc := "ok",
    CallbackMetadata := some { Item := [{ Name := "MpesaReceiptNumber", Value := "ABC1" }] } }

/-- Fixture for claim C1's witness: the delivered payload. -/
def c1Payload : ChargeCallback := { stkCallback := some c1Cb }

/-- Claim C1, witnessed on the CO123 scenario of the specification. -/
theorem charge_callback_idempotent_witness :
    fundingOf (handleContributionCallback 2 (handleContributionCallback 1 c1DB c1Payload)
        c1Payload) (some 7)
      = fundingOf (handleContributionCallback 1 c1DB c1Payload) (some 7) ∧
    fundingOf (handleContributionCallback 1 c1DB c1Payload) (some 7)
      = some (Option.getD (some (0 : ℚ)) 0 + 100) :=
  charge_callback_idempotent 1 2 c1DB c1Payload c1Cb "CO123"
    { id := 1, campaign_id := some 7, amount := 100, status := "pending",
      mpesa_checkout_request_id := some "CO123" }
    { id := 7, current_funding := some 0 }
    rfl rfl rfl (by decide) rfl
    (by simp [findContributionByCheckout, c1DB, singleWhere, List.filter])
    rfl
    (by simp [findCampaign, c1DB, singleWhere, List.filter])

/-- Claim C4 (amended): the reversal handler that actually runs (the second,
overriding definition) maps result codes as follows for a resolved
contribution: only the strict numeric result code 0 transitions the row to
`refunded`, sets the refunded timestamp, and debits the campaign ledger by
the stored amount; every other result code — including the documented
secondary success code 21 — records the reversal result fields but leaves the
contribution status unchanged and has no ledger effect. -/
theorem reversal_result_code_mapping (now : ℕ) (db : DB) (p : ReversalCallback)
    (r : ReversalResult) (k : String) (c : Contribution) (g : Campaign)
    (hr : p.Result = some r) (hk : reversalLookupKey r = some k)
    (hc : findContributionByTx db k = some c)
    (hg : findCampaign db c.campaign_id = some g) :
    (r.ResultCode = RCode.num 0 →
      findContributionByTx (handleReversalCallback now db p) k
          = some (reversalCallbackUpdate now r c) ∧
      (reversalCallbackUpdate now r c).status = "refunded" ∧
      (reversalCallbackUpdate now r c).refunded_at = some now ∧
      fundingOf (handleReversalCallback now db p) c.campaign_id
        = some (g.current_funding.getD 0 - c.amount)) ∧
    (¬(r.ResultCode = RCode.num 0) →
      findContributionByTx (handleReversalCallback now db p) k
          = some (reversalCallbackUpdate now r c) ∧
      (reversalCallbackUpdate now r c).status = c.status ∧
      (reversalCallbackUpdate now r c).reversal_result_code = some r.ResultCode.toText ∧
      (handleReversalCallback now db p).campaigns = db.campaigns) := by
  have h := handleReversalCallback_found now db p r k c hr hk hc
  constructor
  · intro hrc0
    rw [if_pos hrc0] at h
    refine ⟨?_, ?_, ?_, ?_⟩
    · rw [h]
      rw [findContributionByTx_eq_of_contributions _
            (updateContributionsWhere db c.id (reversalCallbackUpdate now r)) k
            (updateCampaignFunding_contributions _ _ _)]
      rw [findContributionByTx_update db c.id (reversalCallbackUpdate now r)
            (fun x => (reversalCallbackUpdate_fields now r x).1) k, hc]
      simp
    · rw [(reversalCallbackUpdate_fields now r c).2.2.2.2.1, if_pos hrc0]
    · rw [(reversalCallbackUpdate_fields now r c).2.2.2.2.2.1, if_pos hrc0]
    · rw [h]
      have hfound_g : findCampaign
          (updateContributionsWhere db c.id (reversalCallbackUpdate now r))
          c.campaign_id = some g := by
        rw [findCampaign_eq_of_campaigns _ db _ (updateContributionsWhere_campaigns db c.id _)]
        exact hg
      rw [fundingOf_updateCampaignFunding _ _ g (-c.amount) hfound_g]
      rw [sub_eq_add_neg]
  · intro hrcne
    rw [if_neg hrcne] at h
    refine ⟨?_, ?_, ?_, ?_⟩
    · rw [h]
      rw [findContributionByTx_update db c.id (reversalCallbackUpdate now r)
            (fun x => (reversalCallbackUpdate_fields now r x).1) k, hc]
      simp
    · rw [(reversalCallbackUpdate_fields now r c).2.2.2.2.1, if_neg hrcne]
    · exact (reversalCallbackUpdate_fields now r c).2.2.2.2.2.2
    · rw [h]
      exact updateContributionsWhere_campaigns _ _ _

/-- Fixture for claim C4's witness: a refund-pending contribution with
receipt TX5 and its campaign holding 500. -/
def c4DB : DB :=
  { contributions := [{ id := 1, campaign_id := some 3, amount := 100,
                        status := "refund_pending", transaction_id := some "TX5" }],
    campaigns := [{ id := 3, current_funding := some 500 }] }

/-- Fixture for claim C4's witness: a successful (numeric 0) reversal result
envelope for receipt TX5. -/
def c4Result : ReversalResult :=
  { ResultCode := RCode.num 0, ResultDesc := "ok", TransactionID := some "TX5" }

/-- Fixture for claim C4's witness: the delivered payload. -/
def c4Payload : ReversalCallback := { Result := some c4Result }

/-- Claim C4 amended, witnessed on the TX5 success scenario. -/
theorem reversal_result_code_mapping_witness :
    (c4Result.ResultCode = RCode.num 0 →
      findContributionByTx (handleReversalCallback 61 c4DB c4Payload) "TX5"
          = some (reversalCallbackUpdate 61 c4Result
              { id := 1, campaign_id := some 3, amount := 100,
                status := "refund_pending", transaction_id := some "TX5" }) ∧
      (reversalCallbackUpdate 61 c4Result
          { id := 1, campaign_id := some 3, amount := 100,
            status := "refund_pending", transaction_id := some "TX5" }).status = "refunded" ∧
      (reversalCallbackUpdate 61 c4Result
          { id := 1, campaign_id := some 3, amount := 100,
            status := "refund_pending", transaction_id := some "TX5" }).refunded_at = some 61 ∧
      fundingOf (handleReversalCallback 61 c4DB c4Payload) (some 3)
        = some (Option.getD (some (500 : ℚ)) 0 - 100)) ∧
    (¬(c4Result.ResultCode = RCode.num 0) →
      findContributionByTx (handleReversalCallback 61 c4DB c4Payload) "TX5"
          = some (reversalCallbackUpdate 61 c4Result
              { id := 1, campaign_id := some 3, amount := 100,
                status := "refund_pending", transaction_id := some "TX5" }) ∧
      (reversalCallbackUpdate 61 c4Result
          { id := 1, campaign_id := some 3, amount := 100,
            status := "refund_pending", transaction_id := some "TX5" }).status = "refund_pending" ∧
      (reversalCallbackUpdate 61 c4Result
          { id := 1, campaign_id := some 3, amount := 100,
            status := "refund_pending", transaction_id := some "TX5" }).reversal_result_code
        = some c4Result.ResultCode.toText ∧
      (handleReversalCallback 61 c4DB c4Payload).campaigns = c4DB.campaigns) :=
  reversal_result_code_mapping 61 c4DB c4Payload c4Result "TX5"
    { id := 1, campaign_id := some 3, amount := 100,
      status := "refund_pending", transaction_id := some "TX5" }
    { id := 3, current_funding := some 500 }
    rfl rfl
    (by simp [findContributionByTx, c4DB, singleWhere, List.filter])
    (by simp [findCampaign, c4DB, singleWhere, List.filter])
